import Mathlib

/-!
Verification development for the adaptive-cloud-dashboard simulation server
(`cloud_simulation_api.py`).  The Python module keeps one global mutable
`simulation_state` dictionary, a `WebSocketManager` holding the list of live
subscriber connections, three scenario stepper coroutines that rewrite the
metrics / zone_status part of the state and broadcast it, and a small REST
surface (`start_scenario`, `stop_simulation`, `reset_simulation`).

The embedding below is a shallow one: the global dictionary becomes the
`SimState` record, machine floats become exact rationals `ℚ`, the calls to
`np.random.*` (and to `np.sin`, whose value at a given step is just some real
number) become explicit extra arguments carrying the drawn values, and each
coroutine becomes a pure state-transformer that also returns the list of
broadcast events it emitted.  Wall-clock timestamps and `asyncio.sleep` are
dropped: they carry no information the claims mention.
-/

namespace CloudSim

/-- Metrics sub-record of `simulation_state["metrics"]` (lines 34-40 of
`cloud_simulation_api.py`).  Python floats are modelled as `ℚ`, the migration
counter (a Python int) as `ℤ`. -/
structure Metrics where
  cpu_utilization : ℚ
  ram_usage : ℚ
  storage_usage : ℚ
  bandwidth_usage : ℚ
  vm_migration_count : ℤ
deriving DecidableEq, Repr

/-- Entry of the `zone_status` mapping: `{"vm_count": ..., "utilization": ...}`. -/
structure ZoneInfo where
  vm_count : ℤ
  utilization : ℚ
deriving DecidableEq, Repr

/-- The `zone_status` dictionary has the three fixed zone keys
(lines 41-45), so it is modelled as a record with one field per zone. -/
structure ZoneStatus where
  high_resource_slow : ZoneInfo
  medium : ZoneInfo
  fast_small : ZoneInfo
deriving DecidableEq, Repr

/-- Values taken by `simulation_state["scenario"]` in the source:
`"idle"` plus the names the three steppers write. -/
inductive ScenarioTag where
  | idle
  | high_load
  | zone_migration
  | resource_scaling
deriving DecidableEq, Repr

/-- Zone names, used for `VirtualMachine.current_zone`. -/
inductive ZoneName where
  | high_resource_slow
  | medium
  | fast_small
deriving DecidableEq, Repr

/-- The `VirtualMachine` class (lines 84-105).  `to_dict` serialisation is not
modelled.  Resource requests are floats (`ℚ` here). -/
structure VirtualMachine where
  vm_id : String
  cpu_req : ℚ
  ram_req : ℚ
  storage_req : ℚ
  bandwidth_req : ℚ
  current_zone : Option ZoneName
  host_id : Option String
  migration_count : ℤ
deriving DecidableEq, Repr

/-- The `Host` class (lines 107-136).  The per-zone allocation table
`Host.zones` (initialised to three empty entries and never written anywhere in
the module) and `to_dict` are not modelled: no claim mentions them. -/
structure Host where
  host_id : String
  total_cpu : ℚ
  total_ram : ℚ
  total_storage : ℚ
  total_bandwidth : ℚ
  available_cpu : ℚ
  available_ram : ℚ
  available_storage : ℚ
  available_bandwidth : ℚ
deriving DecidableEq, Repr

/-- The global `simulation_state` dictionary (lines 31-48) as a record. -/
structure SimState where
  running : Bool
  scenario : ScenarioTag
  metrics : Metrics
  zone_status : ZoneStatus
  vms : List VirtualMachine
  hosts : List Host
deriving DecidableEq, Repr

/-- The module-level initial value of `simulation_state` (lines 31-48). -/
def initial_state : SimState :=
  { running := false
    scenario := ScenarioTag.idle
    metrics := { cpu_utilization := 0, ram_usage := 0, storage_usage := 0,
                 bandwidth_usage := 0, vm_migration_count := 0 }
    zone_status := { high_resource_slow := ⟨0, 0⟩, medium := ⟨0, 0⟩, fast_small := ⟨0, 0⟩ }
    vms := []
    hosts := [] }

/-- JSON body `{"message": ..., "status": ...}` returned by the stop/reset
endpoints (lines 364, 384). -/
structure ApiMsg where
  message : String
  status : String
deriving DecidableEq, Repr

/-- Outcome of an endpoint that may raise `HTTPException`: either a 200 body
or an HTTP error with a status code and detail string. -/
inductive ApiResult where
  | ok (message : String) (status : String)
  | httpError (code : ℕ) (detail : String)
deriving DecidableEq, Repr

/-- `str(e)` for a starlette/fastapi `HTTPException e`:
`f"{status_code}: {detail}"`. -/
def excStr (code : ℕ) (detail : String) : String :=
  toString code ++ ": " ++ detail

/-- Body of `initialize_simulation` (lines 139-162).  The four `ℕ → ℚ`
arguments carry the values drawn by `np.random.normal` for VM number `i`
(cpu, ram, storage, bandwidth respectively); the function writes only the
`hosts` and `vms` keys of the state. -/
def init_simulation (s : SimState) (dc dr ds db : ℕ → ℚ) : SimState :=
  { s with
    hosts := (List.range 5).map (fun i =>
      { host_id := "Host_" ++ toString i,
        total_cpu := 200, total_ram := 16000, total_storage := 500000, total_bandwidth := 1000,
        available_cpu := 200, available_ram := 16000,
        available_storage := 500000, available_bandwidth := 1000 }),
    vms := (List.range 15).map (fun i =>
      { vm_id := "VM_" ++ toString i,
        cpu_req := max 10 (dc i),
        ram_req := max 1000 (dr i),
        storage_req := max 10000 (ds i),
        bandwidth_req := max 10 (db i),
        current_zone := none,
        host_id := none,
        migration_count := 0 }) }

/-- Inner `try:` block of `start_scenario` (lines 344-358).  A valid id
spawns exactly one stepper task (the returned `ℕ` counts `create_task`
calls); an invalid id first rolls `running` back to `False` and then raises
`HTTPException(400, "Invalid scenario ID")`, which propagates as an
`Except.error` carrying the exception and the state at the raise point. -/
def start_scenario_body (s : SimState) (scenario_id : ℤ) :
    Except ((ℕ × String) × SimState) (ApiResult × SimState × ℕ) :=
  if scenario_id = 1 then
    Except.ok (ApiResult.ok ("Started scenario " ++ toString scenario_id) "success", s, 1)
  else if scenario_id = 2 then
    Except.ok (ApiResult.ok ("Started scenario " ++ toString scenario_id) "success", s, 1)
  else if scenario_id = 3 then
    Except.ok (ApiResult.ok ("Started scenario " ++ toString scenario_id) "success", s, 1)
  else
    Except.error ((400, "Invalid scenario ID"), { s with running := false })

/-- `start_scenario` endpoint (lines 337-358).  Note that the
`HTTPException(400)` raised for an invalid id inside the `try:` block is an
`Exception`, so it is caught by the function's own blanket
`except Exception as e:` handler, which sets `running = False` (again) and
re-raises `HTTPException(500, str(e))`.  The last component counts stepper
tasks spawned by the call. -/
def start_scenario (s : SimState) (scenario_id : ℤ) : ApiResult × SimState × ℕ :=
  if s.running then
    (ApiResult.httpError 400 "Simulation already running", s, 0)
  else
    match start_scenario_body { s with running := true } scenario_id with
    | Except.ok r => r
    | Except.error (e, s2) =>
        (ApiResult.httpError 500 (excStr e.1 e.2), { s2 with running := false }, 0)

/-- `stop_simulation` endpoint (lines 360-364). -/
def stop_simulation (s : SimState) : ApiMsg × SimState :=
  (⟨"Simulation stopped", "success"⟩,
   { s with running := false, scenario := ScenarioTag.idle })

/-- `reset_simulation` endpoint (lines 366-384): zeroes the flags, metrics and
zone_status, then calls `initialize_simulation` (with fresh random draws for
the VM requests). -/
def reset_simulation (s : SimState) (dc dr ds db : ℕ → ℚ) : ApiMsg × SimState :=
  let s1 : SimState :=
    { s with
      running := false,
      scenario := ScenarioTag.idle,
      metrics := { cpu_utilization := 0, ram_usage := 0, storage_usage := 0,
                   bandwidth_usage := 0, vm_migration_count := 0 },
      zone_status := { high_resource_slow := ⟨0, 0⟩, medium := ⟨0, 0⟩, fast_small := ⟨0, 0⟩ } }
  (⟨"Simulation reset", "success"⟩, init_simulation s1 dc dr ds db)

/-! ### WebSocketManager: subscriber registry and broadcaster -/

/-- `WebSocketManager.disconnect` (lines 62-65).  Subscribers are opaque
connection handles, modelled as `ℕ` ids; `active_connections` is a Python
list, modelled as `List ℕ`.  `list.remove` removes the first occurrence and
would raise `ValueError` on a missing element, hence the membership guard. -/
def disconnect (conns : List ℕ) (ws : ℕ) : List ℕ :=
  if ws ∈ conns then conns.erase ws else conns

/-- `WebSocketManager.broadcast` (lines 67-79).  `fails c = true` means
`connection.send_text` raises for subscriber `c`; the `try/except` swallows
the exception and appends `c` to the local `disconnected` list, so the loop
still visits every later connection.  After the loop each collected failure is
passed to `disconnect`.  The result is `(new active_connections, the
subscribers whose send succeeded — i.e. who received the message)`.  When the
list is empty the `if self.active_connections:` guard skips everything. -/
def broadcast (conns : List ℕ) (fails : ℕ → Bool) : List ℕ × List ℕ :=
  if conns = [] then (conns, [])
  else ((conns.filter fails).foldl disconnect conns,
        conns.filter (fun c => !fails c))

/-! ### Scenario step formulas -/

/-- Python `int(...)` on a rational: truncation toward zero. -/
def pytrunc (q : ℚ) : ℤ :=
  if 0 ≤ q then ⌊q⌋ else -⌊-q⌋

/-- Local variable `cpu_util` of scenario 1 (line 174):
`min(95, 60 + step * 1.2 + np.random.normal(0, 5))`; `j1` is the drawn
normal value. -/
def scenario1_cpu_util (step : ℕ) (j1 : ℚ) : ℚ :=
  min 95 (60 + (step : ℚ) * 1.2 + j1)

/-- Metrics written by one step of `scenario_1_high_load` (lines 174-189).
`prev` is `simulation_state["metrics"]["vm_migration_count"]` before the
step; `j1`-`j4` are the four `np.random.normal` draws and `coin` the
`np.random.random()` draw guarding the migration increment. -/
def scenario1_metrics (step : ℕ) (prev : ℤ) (j1 j2 j3 j4 coin : ℚ) : Metrics :=
  let cpu_util := scenario1_cpu_util step j1
  let ram_usage := min 90 (50 + (step : ℚ) * 1.0 + j2)
  let storage_usage := min 85 (40 + (step : ℚ) * 0.8 + j3)
  let bandwidth_usage := min 80 (35 + (step : ℚ) * 0.6 + j4)
  let migration_count : ℤ := if 80 < cpu_util ∧ coin < 0.3 then prev + 1 else prev
  { cpu_utilization := max 0 cpu_util,
    ram_usage := max 0 ram_usage,
    storage_usage := max 0 storage_usage,
    bandwidth_usage := max 0 bandwidth_usage,
    vm_migration_count := migration_count }

/-- Zone status written by one step of `scenario_1_high_load`
(lines 192-205).  `cpu_util` is the local variable (see
`scenario1_cpu_util`); `z1`-`z3` are the per-zone `np.random.normal`
draws and `r1`-`r3` the `np.random.randint` draws
(`randint(-2, 3) ∈ [-2, 2]`, `randint(-1, 2) ∈ [-1, 1]`). -/
def scenario1_zone (cpu_util z1 z2 z3 : ℚ) (r1 r2 r3 : ℤ) : ZoneStatus :=
  { high_resource_slow :=
      { vm_count := max 0 (8 + r1), utilization := min 100 (cpu_util + z1) },
    medium :=
      { vm_count := max 0 (5 + r2), utilization := min 100 (cpu_util * 0.7 + z2) },
    fast_small :=
      { vm_count := max 0 (2 + r3), utilization := min 100 (cpu_util * 0.4 + z3) } }

/-- Local variables `high_zone_load`, `medium_zone_load`, `fast_zone_load`
of `scenario_2_zone_migration` (lines 225-234). -/
def scenario2_loads (step : ℕ) : ℚ × ℚ × ℚ :=
  if step < 10 then
    (90 - (step : ℚ) * 2, 40 + (step : ℚ) * 3, 20 + (step : ℚ) * 1)
  else
    (max 40 (70 - ((step : ℚ) - 10) * 2),
     min 80 (60 + ((step : ℚ) - 10) * 1),
     min 60 (30 + ((step : ℚ) - 10) * 1.5))

/-- Local variable `avg_utilization` (line 240). -/
def scenario2_avg (step : ℕ) : ℚ :=
  ((scenario2_loads step).1 + (scenario2_loads step).2.1 + (scenario2_loads step).2.2) / 3

/-- Metrics written by one step of `scenario_2_zone_migration`
(lines 236-248).  `r` is the `np.random.randint(1, 4)` draw (in `[1, 3]`),
added only for steps 8 through 15. -/
def scenario2_metrics (step : ℕ) (prev r : ℤ) : Metrics :=
  { cpu_utilization := scenario2_avg step,
    ram_usage := scenario2_avg step * 0.9,
    storage_usage := scenario2_avg step * 0.7,
    bandwidth_usage := scenario2_avg step * 0.6,
    vm_migration_count := if 8 ≤ step ∧ step ≤ 15 then prev + r else prev }

/-- Zone status written by one step of `scenario_2_zone_migration`
(lines 250-263). -/
def scenario2_zone (step : ℕ) : ZoneStatus :=
  { high_resource_slow :=
      { vm_count := max 2 (pytrunc (8 - (step : ℚ) * 0.2)),
        utilization := max 0 (scenario2_loads step).1 },
    medium :=
      { vm_count := max 3 (pytrunc (5 + (step : ℚ) * 0.1)),
        utilization := max 0 (scenario2_loads step).2.1 },
    fast_small :=
      { vm_count := max 1 (pytrunc (2 + (step : ℚ) * 0.1)),
        utilization := max 0 (scenario2_loads step).2.2 } }

/-- Local variables `base_cpu` … `base_bandwidth` of
`scenario_3_resource_scaling` (lines 282-287): `sinv` is the value of
`np.sin(step * 0.3)` (some real in `[-1, 1]`, passed in as data) and
`j1`-`j4` the four `np.random.normal` draws;
`scale_factor = 1 + 0.5 * sinv`. -/
def scenario3_bases (sinv j1 j2 j3 j4 : ℚ) : ℚ × ℚ × ℚ × ℚ :=
  let scale_factor := 1 + 0.5 * sinv
  (45 * scale_factor + j1, 50 * scale_factor + j2,
   35 * scale_factor + j3, 40 * scale_factor + j4)

/-- Metrics written by one step of `scenario_3_resource_scaling`
(lines 289-295). -/
def scenario3_metrics (step : ℕ) (prev : ℤ) (sinv j1 j2 j3 j4 : ℚ) : Metrics :=
  let b := scenario3_bases sinv j1 j2 j3 j4
  { cpu_utilization := min 100 (max 0 b.1),
    ram_usage := min 100 (max 0 b.2.1),
    storage_usage := min 100 (max 0 b.2.2.1),
    bandwidth_usage := min 100 (max 0 b.2.2.2),
    vm_migration_count := prev + (if step % 4 = 0 then 1 else 0) }

/-- Local variable `total_utilization` (line 298). -/
def scenario3_tu (sinv j1 j2 j3 j4 : ℚ) : ℚ :=
  let b := scenario3_bases sinv j1 j2 j3 j4
  (b.1 + b.2.1 + b.2.2.1 + b.2.2.2) / 4

/-- Zone status written by one step of `scenario_3_resource_scaling`
(lines 299-312).  `s1`, `s2`, `s3` are the values of `np.sin(step * 0.2)`,
`np.sin(step * 0.15)`, `np.sin(step * 0.25)` and `tu` is
`total_utilization`. -/
def scenario3_zone (s1 s2 s3 tu : ℚ) : ZoneStatus :=
  { high_resource_slow :=
      { vm_count := max 2 (pytrunc (6 + 2 * s1)),
        utilization := min 100 (max 0 (tu * 1.2)) },
    medium :=
      { vm_count := max 3 (pytrunc (7 + s2)),
        utilization := min 100 (max 0 tu) },
    fast_small :=
      { vm_count := max 1 (pytrunc (3 + s3)),
        utilization := min 100 (max 0 (tu * 0.8)) } }

/-! ### Scenario stepper loops -/

/-- One `metrics_update` event handed to `manager.broadcast`
(lines 208-213, 265-270, 314-319): the serialized `data` and `zone_status`
fields.  The wall-clock `timestamp` carries no information the claims
mention and is omitted. -/
structure Event where
  data : Metrics
  zone_status : ZoneStatus
deriving DecidableEq, Repr

/-- Random draws consumed by one step of scenario 1: the four metric
jitters, the migration coin, the three zone jitters and the three
`randint` draws. -/
structure Rnd1 where
  j1 : ℚ
  j2 : ℚ
  j3 : ℚ
  j4 : ℚ
  coin : ℚ
  z1 : ℚ
  z2 : ℚ
  z3 : ℚ
  r1 : ℤ
  r2 : ℤ
  r3 : ℤ
deriving DecidableEq, Repr

/-- Random draw consumed by one step of scenario 2: the
`np.random.randint(1, 4)` value. -/
structure Rnd2 where
  r : ℤ
deriving DecidableEq, Repr

/-- Per-step inputs of scenario 3: the four `np.sin` values (deterministic
in `step` but irrational, so passed as data) and the four normal draws. -/
structure Rnd3 where
  sinv : ℚ
  s1 : ℚ
  s2 : ℚ
  s3 : ℚ
  j1 : ℚ
  j2 : ℚ
  j3 : ℚ
  j4 : ℚ
deriving DecidableEq, Repr

/-- Loop body of `scenario_1_high_load` for index `step` (lines 173-215):
compute the new metrics and zone_status from the formulas, overwrite those
two keys of the state, and broadcast one event.  Note that the body reads
the state only through `metrics["vm_migration_count"]` and in particular
never consults `simulation_state["running"]`. -/
def scenario1_step (step : ℕ) (r : Rnd1) (s : SimState) : SimState × Event :=
  let m := scenario1_metrics step s.metrics.vm_migration_count r.j1 r.j2 r.j3 r.j4 r.coin
  let z := scenario1_zone (scenario1_cpu_util step r.j1) r.z1 r.z2 r.z3 r.r1 r.r2 r.r3
  ({ s with metrics := m, zone_status := z }, ⟨m, z⟩)

/-- Loop body of `scenario_2_zone_migration` for index `step`
(lines 224-270). -/
def scenario2_step (step : ℕ) (r : Rnd2) (s : SimState) : SimState × Event :=
  let m := scenario2_metrics step s.metrics.vm_migration_count r.r
  let z := scenario2_zone step
  ({ s with metrics := m, zone_status := z }, ⟨m, z⟩)

/-- Loop body of `scenario_3_resource_scaling` for index `step`
(lines 281-319). -/
def scenario3_step (step : ℕ) (r : Rnd3) (s : SimState) : SimState × Event :=
  let m := scenario3_metrics step s.metrics.vm_migration_count r.sinv r.j1 r.j2 r.j3 r.j4
  let z := scenario3_zone r.s1 r.s2 r.s3 (scenario3_tu r.sinv r.j1 r.j2 r.j3 r.j4)
  ({ s with metrics := m, zone_status := z }, ⟨m, z⟩)

/-- Folding accumulator for a stepper loop: thread the state through the
step body and append the emitted broadcast event. -/
def stepAcc (stepF : ℕ → SimState → SimState × Event)
    (acc : SimState × List Event) (i : ℕ) : SimState × List Event :=
  ((stepF i acc.1).1, acc.2 ++ [(stepF i acc.1).2])

/-- Run a stepper loop body over a list of step indices, collecting the
final state and the broadcast events in order. -/
def stepsFold (stepF : ℕ → SimState → SimState × Event)
    (l : List ℕ) (s : SimState) : SimState × List Event :=
  l.foldl (stepAcc stepF) (s, [])

/-- The whole `scenario_1_high_load` coroutine (lines 167-215): set
`scenario = "high_load"`, then run the 30-step loop. -/
def scenario1_run (rnd : ℕ → Rnd1) (s : SimState) : SimState × List Event :=
  stepsFold (fun i t => scenario1_step i (rnd i) t) (List.range 30)
    { s with scenario := ScenarioTag.high_load }

/-- The whole `scenario_2_zone_migration` coroutine (lines 218-272). -/
def scenario2_run (rnd : ℕ → Rnd2) (s : SimState) : SimState × List Event :=
  stepsFold (fun i t => scenario2_step i (rnd i) t) (List.range 25)
    { s with scenario := ScenarioTag.zone_migration }

/-- The whole `scenario_3_resource_scaling` coroutine (lines 275-321). -/
def scenario3_run (rnd : ℕ → Rnd3) (s : SimState) : SimState × List Event :=
  stepsFold (fun i t => scenario3_step i (rnd i) t) (List.range 20)
    { s with scenario := ScenarioTag.resource_scaling }

/-- Interleaved execution of `scenario_1_high_load` with one
`POST /api/stop` handled at the step boundary after the first `k` steps
(i.e. during the `await asyncio.sleep(1)` on line 215).  The loop body
(lines 172-215) contains no read of `simulation_state["running"]` and the
task handle returned by `asyncio.create_task` is never retained or
cancelled (lines 346, 360-364), so under the single-threaded cooperative
scheduler the remaining iterations execute exactly as the uninterrupted
ones do.  Returns the final state, the events broadcast before the stop and
the events broadcast after it. -/
def scenario1_run_with_stop (k : ℕ) (rnd : ℕ → Rnd1) (s : SimState) :
    SimState × List Event × List Event :=
  let a := stepsFold (fun i t => scenario1_step i (rnd i) t) ((List.range 30).take k)
    { s with scenario := ScenarioTag.high_load }
  let b := stepsFold (fun i t => scenario1_step i (rnd i) t) ((List.range 30).drop k)
    (stop_simulation a.1).2
  (b.1, a.2, b.2)

/-- All-zero random stream for scenario 1 (a possible draw of each
`np.random.normal` / `random` / `randint` call). -/
def rnd1z : ℕ → Rnd1 := fun _ => ⟨0, 0, 0, 0, 0, 0, 0, 0, 0, 0, 0⟩

/-- Constant random stream for scenario 2 (`randint(1, 4)` drawing 1). -/
def rnd2z : ℕ → Rnd2 := fun _ => ⟨1⟩

/-- All-zero input stream for scenario 3. -/
def rnd3z : ℕ → Rnd3 := fun _ => ⟨0, 0, 0, 0, 0, 0, 0, 0⟩

/-- State in which a stepper has just been started: the module state with
`running = True` (as set by `start_scenario`, line 342). -/
def running_state : SimState := { initial_state with running := true }

/-! ### Helper lemmas -/

lemma stepsFold_len_aux (stepF : ℕ → SimState → SimState × Event) :
    ∀ (l : List ℕ) (acc : SimState × List Event),
      (l.foldl (stepAcc stepF) acc).2.length = acc.2.length + l.length := by
  intro l
  induction l with
  | nil => intro acc; simp
  | cons i l ih =>
      intro acc
      rw [List.foldl_cons, ih]
      simp [stepAcc]
      omega

lemma stepsFold_length (stepF : ℕ → SimState → SimState × Event)
    (l : List ℕ) (s : SimState) :
    (stepsFold stepF l s).2.length = l.length := by
  simp [stepsFold, stepsFold_len_aux]

lemma stepsFold_inv (stepF : ℕ → SimState → SimState × Event)
    (P : SimState → Prop) (hP : ∀ i t, P t → P ((stepF i t).1)) :
    ∀ (l : List ℕ) (acc : SimState × List Event),
      P acc.1 → P ((l.foldl (stepAcc stepF) acc).1) := by
  intro l
  induction l with
  | nil => intro acc h; simpa using h
  | cons i l ih =>
      intro acc h
      rw [List.foldl_cons]
      exact ih _ (hP i acc.1 h)

lemma disconnect_cons_ne (a d : ℕ) (X : List ℕ) (h : d ≠ a) :
    disconnect (a :: X) d = a :: disconnect X d := by
  unfold disconnect
  by_cases hX : d ∈ X
  · rw [if_pos (List.mem_cons_of_mem _ hX), if_pos hX,
      List.erase_cons_tail (by simpa using fun he => h he.symm)]
  · rw [if_neg (by simp [List.mem_cons, h, hX]), if_neg hX]

lemma foldl_disconnect_cons (ds : List ℕ) (a : ℕ) (X : List ℕ)
    (h : ∀ d ∈ ds, d ≠ a) :
    ds.foldl disconnect (a :: X) = a :: ds.foldl disconnect X := by
  induction ds generalizing X with
  | nil => rfl
  | cons d ds ih =>
      rw [List.foldl_cons, List.foldl_cons,
        disconnect_cons_ne a d X (h d (List.mem_cons_self d ds))]
      exact ih (disconnect X d) (fun e he => h e (List.mem_cons_of_mem d he))

lemma foldl_disconnect_filter (l : List ℕ) (p : ℕ → Bool) :
    (l.filter p).foldl disconnect l = l.filter (fun a => !p a) := by
  induction l with
  | nil => rfl
  | cons a l ih =>
      by_cases hp : p a
      · rw [List.filter_cons, if_pos hp, List.foldl_cons]
        have hd : disconnect (a :: l) a = l := by
          unfold disconnect
          rw [if_pos (List.mem_cons_self a l), List.erase_cons_head]
        rw [hd, ih, List.filter_cons, if_neg (by simp [hp])]
      · have hne : ∀ d ∈ l.filter p, d ≠ a := by
          intro d hd hda
          exact hp (hda ▸ (List.mem_filter.mp hd).2)
        rw [List.filter_cons, if_neg (by simpa using hp),
          foldl_disconnect_cons _ a l hne, ih,
          List.filter_cons, if_pos (by simp [Bool.not_eq_true] at hp ⊢; exact hp)]

lemma broadcast_fst (conns : List ℕ) (fails : ℕ → Bool) :
    (broadcast conns fails).1 = conns.filter (fun c => !fails c) := by
  by_cases hc : conns = []
  · subst hc; rfl
  · rw [broadcast, if_neg hc]
    exact foldl_disconnect_filter conns fails

lemma broadcast_snd (conns : List ℕ) (fails : ℕ → Bool) :
    (broadcast conns fails).2 = conns.filter (fun c => !fails c) := by
  by_cases hc : conns = []
  · subst hc; rfl
  · rw [broadcast, if_neg hc]

lemma clamp_minmax_mem (c x : ℚ) (hc : c ≤ 100) :
    0 ≤ max 0 (min c x) ∧ max 0 (min c x) ≤ 100 :=
  ⟨le_max_left 0 _, max_le (by norm_num) ((min_le_left c x).trans hc)⟩

lemma clamp_maxmin_mem (x : ℚ) :
    0 ≤ min 100 (max 0 x) ∧ min 100 (max 0 x) ≤ 100 :=
  ⟨le_min (by norm_num) (le_max_left 0 x), min_le_left _ _⟩

lemma scenario2_loads_bounds (step : ℕ) :
    (0 ≤ (scenario2_loads step).1 ∧ (scenario2_loads step).1 ≤ 100) ∧
    (0 ≤ (scenario2_loads step).2.1 ∧ (scenario2_loads step).2.1 ≤ 100) ∧
    (0 ≤ (scenario2_loads step).2.2 ∧ (scenario2_loads step).2.2 ≤ 100) := by
  unfold scenario2_loads
  by_cases h : step < 10
  · rw [if_pos h]
    dsimp only
    have h9 : (step : ℚ) ≤ 9 := by exact_mod_cast Nat.lt_succ_iff.mp h
    have h0 : (0 : ℚ) ≤ (step : ℚ) := Nat.cast_nonneg step
    refine ⟨⟨by linarith, by linarith⟩, ⟨by linarith, by linarith⟩,
      ⟨by linarith, by linarith⟩⟩
  · rw [if_neg h]
    dsimp only
    have h10 : (10 : ℚ) ≤ (step : ℚ) := by exact_mod_cast Nat.le_of_not_lt h
    refine ⟨⟨?_, ?_⟩, ⟨?_, ?_⟩, ⟨?_, ?_⟩⟩
    · exact le_trans (by norm_num) (le_max_left 40 _)
    · exact max_le (by norm_num) (by linarith)
    · exact le_min (by norm_num) (by linarith)
    · exact le_trans (min_le_left _ _) (by norm_num)
    · exact le_min (by norm_num) (by linarith)
    · exact le_trans (min_le_left _ _) (by norm_num)

lemma scenario2_avg_bounds (step : ℕ) :
    0 ≤ scenario2_avg step ∧ scenario2_avg step ≤ 100 := by
  obtain ⟨⟨a0, a1⟩, ⟨b0, b1⟩, ⟨c0, c1⟩⟩ := scenario2_loads_bounds step
  unfold scenario2_avg
  constructor <;> linarith

/-- Every percentage field of `m` is within `[0, 100]`. -/
def metricsInRange (m : Metrics) : Prop :=
  0 ≤ m.cpu_utilization ∧ m.cpu_utilization ≤ 100 ∧
  0 ≤ m.ram_usage ∧ m.ram_usage ≤ 100 ∧
  0 ≤ m.storage_usage ∧ m.storage_usage ≤ 100 ∧
  0 ≤ m.bandwidth_usage ∧ m.bandwidth_usage ≤ 100

/-- The zone entry has a non-negative `vm_count` and a `utilization`
within `[0, 100]`. -/
def zoneInfoOk (z : ZoneInfo) : Prop :=
  0 ≤ z.vm_count ∧ 0 ≤ z.utilization ∧ z.utilization ≤ 100

/-- C5: for every scenario, every step index, and every value of the random
jitter, the broadcast payload's metrics fields `cpu_utilization`,
`ram_usage`, `storage_usage`, and `bandwidth_usage` each lie within
`[0, 100]`.  (Stated for every natural `step`, a superset of the indices
each loop actually visits.) -/
theorem C5_metrics_in_range (step : ℕ) (prev r : ℤ) (j1 j2 j3 j4 coin sinv k1 k2 k3 k4 : ℚ) :
    metricsInRange (scenario1_metrics step prev j1 j2 j3 j4 coin) ∧
    metricsInRange (scenario2_metrics step prev r) ∧
    metricsInRange (scenario3_metrics step prev sinv k1 k2 k3 k4) := by
  refine ⟨?_, ?_, ?_⟩
  · obtain ⟨a0, a1⟩ := clamp_minmax_mem 95 (60 + (step : ℚ) * 1.2 + j1) (by norm_num)
    obtain ⟨b0, b1⟩ := clamp_minmax_mem 90 (50 + (step : ℚ) * 1.0 + j2) (by norm_num)
    obtain ⟨c0, c1⟩ := clamp_minmax_mem 85 (40 + (step : ℚ) * 0.8 + j3) (by norm_num)
    obtain ⟨d0, d1⟩ := clamp_minmax_mem 80 (35 + (step : ℚ) * 0.6 + j4) (by norm_num)
    exact ⟨a0, a1, b0, b1, c0, c1, d0, d1⟩
  · obtain ⟨a0, a1⟩ := scenario2_avg_bounds step
    refine ⟨a0, a1, ?_, ?_, ?_, ?_, ?_, ?_⟩ <;>
      simp only [scenario2_metrics] <;> linarith
  · obtain ⟨a0, a1⟩ := clamp_maxmin_mem (scenario3_bases sinv k1 k2 k3 k4).1
    obtain ⟨b0, b1⟩ := clamp_maxmin_mem (scenario3_bases sinv k1 k2 k3 k4).2.1
    obtain ⟨c0, c1⟩ := clamp_maxmin_mem (scenario3_bases sinv k1 k2 k3 k4).2.2.1
    obtain ⟨d0, d1⟩ := clamp_maxmin_mem (scenario3_bases sinv k1 k2 k3 k4).2.2.2
    exact ⟨a0, a1, b0, b1, c0, c1, d0, d1⟩

/-- C6 (counterexample): in scenario 1 the zone `utilization` values are
clamped above at 100 but have no lower clamp (lines 192-205: `min(100, ...)`
with no `max(0, ...)`), so a sufficiently negative `np.random.normal(0, 10)`
zone jitter (here `-61`, with all other draws `0`) makes the written
`high_resource_slow` utilization negative at step 0. -/
theorem C6_counterexample :
    (scenario1_zone (scenario1_cpu_util 0 0) (-61) 0 0 0 0 0).high_resource_slow.utilization < 0 := by
  norm_num [scenario1_zone, scenario1_cpu_util]

/-- C6 (amended): in every scenario, every step and every value of the
random draws, each zone's `vm_count` is a non-negative integer; each zone's
`utilization` is at most 100; and in scenarios 2 and 3 the utilization is
also at least 0.  (In scenario 1 it can be negative, see
`C6_counterexample`.) -/
theorem C6_zone_bounds (cpu_util z1 z2 z3 : ℚ) (r1 r2 r3 : ℤ) (step : ℕ)
    (s1 s2 s3 tu : ℚ) :
    (0 ≤ (scenario1_zone cpu_util z1 z2 z3 r1 r2 r3).high_resource_slow.vm_count ∧
      (scenario1_zone cpu_util z1 z2 z3 r1 r2 r3).high_resource_slow.utilization ≤ 100 ∧
      0 ≤ (scenario1_zone cpu_util z1 z2 z3 r1 r2 r3).medium.vm_count ∧
      (scenario1_zone cpu_util z1 z2 z3 r1 r2 r3).medium.utilization ≤ 100 ∧
      0 ≤ (scenario1_zone cpu_util z1 z2 z3 r1 r2 r3).fast_small.vm_count ∧
      (scenario1_zone cpu_util z1 z2 z3 r1 r2 r3).fast_small.utilization ≤ 100) ∧
    (zoneInfoOk (scenario2_zone step).high_resource_slow ∧
      zoneInfoOk (scenario2_zone step).medium ∧
      zoneInfoOk (scenario2_zone step).fast_small) ∧
    (zoneInfoOk (scenario3_zone s1 s2 s3 tu).high_resource_slow ∧
      zoneInfoOk (scenario3_zone s1 s2 s3 tu).medium ∧
      zoneInfoOk (scenario3_zone s1 s2 s3 tu).fast_small) := by
  obtain ⟨⟨a0, a1⟩, ⟨b0, b1⟩, ⟨c0, c1⟩⟩ := scenario2_loads_bounds step
  refine ⟨⟨le_max_left 0 _, min_le_left _ _, le_max_left 0 _, min_le_left _ _,
    le_max_left 0 _, min_le_left _ _⟩, ?_, ?_⟩
  · refine ⟨⟨?_, le_max_left 0 _, max_le (by norm_num) a1⟩,
      ⟨?_, le_max_left 0 _, max_le (by norm_num) b1⟩,
      ⟨?_, le_max_left 0 _, max_le (by norm_num) c1⟩⟩
    · exact le_trans (by norm_num) (le_max_left 2 _)
    · exact le_trans (by norm_num) (le_max_left 3 _)
    · exact le_trans (by norm_num) (le_max_left 1 _)
  · obtain ⟨ha0, ha1⟩ := clamp_maxmin_mem (tu * 1.2)
    obtain ⟨hb0, hb1⟩ := clamp_maxmin_mem tu
    obtain ⟨hc0, hc1⟩ := clamp_maxmin_mem (tu * 0.8)
    exact ⟨⟨le_trans (by norm_num) (le_max_left 2 _), ha0, ha1⟩,
      ⟨le_trans (by norm_num) (le_max_left 3 _), hb0, hb1⟩,
      ⟨le_trans (by norm_num) (le_max_left 1 _), hc0, hc1⟩⟩

/-- C7: within one scenario run, `vm_migration_count` is a non-negative
integer and monotonically non-decreasing across consecutive steps, in every
scenario and for every value of the random jitter.  Each conjunct relates
the counter value a step reads (`prev`) to the value it writes; for
scenario 2 the `randint(1, 4)` draw satisfies `1 ≤ r`. -/
theorem C7_migration_monotone (step : ℕ) (prev r : ℤ)
    (j1 j2 j3 j4 coin sinv k1 k2 k3 k4 : ℚ) :
    (prev ≤ (scenario1_metrics step prev j1 j2 j3 j4 coin).vm_migration_count ∧
      (0 ≤ prev → 0 ≤ (scenario1_metrics step prev j1 j2 j3 j4 coin).vm_migration_count)) ∧
    (1 ≤ r →
      prev ≤ (scenario2_metrics step prev r).vm_migration_count ∧
      (0 ≤ prev → 0 ≤ (scenario2_metrics step prev r).vm_migration_count)) ∧
    (prev ≤ (scenario3_metrics step prev sinv k1 k2 k3 k4).vm_migration_count ∧
      (0 ≤ prev → 0 ≤ (scenario3_metrics step prev sinv k1 k2 k3 k4).vm_migration_count)) := by
  refine ⟨?_, ?_, ?_⟩
  · simp only [scenario1_metrics]
    split <;> constructor <;> omega
  · intro hr
    simp only [scenario2_metrics]
    split <;> constructor <;> omega
  · simp only [scenario3_metrics]
    split <;> constructor <;> omega

/-- Witness for C7 at step 0, `prev = 0`, `r = 1`, all jitters 0. -/
theorem C7_witness :
    (0 : ℤ) ≤ (scenario1_metrics 0 0 0 0 0 0 0).vm_migration_count ∧
    (0 : ℤ) ≤ (scenario2_metrics 0 0 1).vm_migration_count ∧
    (0 : ℤ) ≤ (scenario3_metrics 0 0 0 0 0 0 0).vm_migration_count := by
  obtain ⟨h1, h2, h3⟩ := C7_migration_monotone 0 0 1 0 0 0 0 0 0 0 0 0 0
  exact ⟨h1.2 le_rfl, (h2 le_rfl).2 le_rfl, h3.2 le_rfl⟩

/-- C1 (counterexample): starting scenario 1 from the running state and
handling `POST /api/stop` at the step boundary after step 0 (with an
all-zero draw of the randomness), the stepper still performs further steps:
broadcasts keep occurring after the stop, contradicting the claim that no
further snapshot write or broadcast occurs in that run. -/
theorem C1_counterexample :
    0 < (scenario1_run_with_stop 1 rnd1z running_state).2.2.length := by
  simp [scenario1_run_with_stop, stepsFold_length]

/-- C1 (amended): `stop()` always succeeds and sets `running = false` and
`scenario = "idle"`, but the stepper loop never reads a cancellation
flag or signal: after a stop handled at the step boundary following the
first `k` steps, all `30 - k` remaining steps of scenario 1 still execute,
each performing its snapshot write and broadcast.  The `running` and
`scenario` values written by `stop()` persist only because the stepper never
writes those fields. -/
theorem C1_stop_not_observed (k : ℕ) (rnd : ℕ → Rnd1) (s : SimState) :
    (stop_simulation s).1 = ⟨"Simulation stopped", "success"⟩ ∧
    (scenario1_run_with_stop k rnd s).2.1.length = min k 30 ∧
    (scenario1_run_with_stop k rnd s).2.2.length = 30 - k ∧
    (scenario1_run_with_stop k rnd s).1.running = false ∧
    (scenario1_run_with_stop k rnd s).1.scenario = ScenarioTag.idle := by
  refine ⟨rfl, ?_, ?_, ?_, ?_⟩
  · simp [scenario1_run_with_stop, stepsFold_length]
  · simp [scenario1_run_with_stop, stepsFold_length]
  · simp only [scenario1_run_with_stop, stepsFold]
    exact stepsFold_inv _ (fun t => t.running = false) (fun i t h => h) _ _ rfl
  · simp only [scenario1_run_with_stop, stepsFold]
    exact stepsFold_inv _ (fun t => t.scenario = ScenarioTag.idle) (fun i t h => h) _ _ rfl

/-- C2 evaluated at the failing input: `POST /api/scenario/4` from the idle
initial state.  The `HTTPException(400, "Invalid scenario ID")` raised in
the `else` branch is caught by the endpoint's own blanket
`except Exception`, so the caller receives a 500 (whose detail is
`str(e) = "400: Invalid scenario ID"`), not the claimed 400; `running` is
left `false` as claimed. -/
theorem C2_invalid_id_gives_500 :
    start_scenario initial_state 4 =
      (ApiResult.httpError 500 "400: Invalid scenario ID", initial_state, 0) := by
  rfl

/-- C3: a delivery failure during `broadcast` is never propagated (the
model is a total function); every subscriber whose send succeeds still
receives the message in that same pass; the registry returned by the pass
is exactly the non-failing subscribers, so each failed subscriber is absent
from it and from the deliveries of any subsequent broadcast. -/
theorem C3_broadcast_isolates_failures (conns : List ℕ) (fails fails2 : ℕ → Bool) :
    (broadcast conns fails).2 = conns.filter (fun c => !fails c) ∧
    (broadcast conns fails).1 = conns.filter (fun c => !fails c) ∧
    (∀ c, fails c = true → c ∉ (broadcast conns fails).1) ∧
    (∀ c, fails c = true → c ∉ (broadcast (broadcast conns fails).1 fails2).2) := by
  refine ⟨broadcast_snd conns fails, broadcast_fst conns fails, ?_, ?_⟩
  · intro c hc hmem
    rw [broadcast_fst] at hmem
    have h2 := (List.mem_filter.mp hmem).2
    simp [hc] at h2
  · intro c hc hmem
    rw [broadcast_snd] at hmem
    have h1 := (List.mem_filter.mp hmem).1
    rw [broadcast_fst] at h1
    have h2 := (List.mem_filter.mp h1).2
    simp [hc] at h2

/-- Witness for C3: subscribers `[1, 2]` where delivery to `1` fails. -/
theorem C3_witness :
    (1 : ℕ) ∉ (broadcast [1, 2] (fun c => c == 1)).1 ∧
    (1 : ℕ) ∉ (broadcast (broadcast [1, 2] (fun c => c == 1)).1 (fun _ => false)).2 :=
  ⟨(C3_broadcast_isolates_failures [1, 2] (fun c => c == 1) (fun _ => false)).2.2.1 1 rfl,
   (C3_broadcast_isolates_failures [1, 2] (fun c => c == 1) (fun _ => false)).2.2.2 1 rfl⟩

/-- C4: starting a valid scenario id from `running = false` returns the 200
success body, sets `running = true` changing nothing else, and spawns
exactly one stepper task; any start issued while `running = true` is
rejected with the 400 already-running error, spawns nothing and leaves the
state unchanged. -/
theorem C4_start_transitions (s : SimState) (sid : ℤ) :
    (s.running = true →
      start_scenario s sid =
        (ApiResult.httpError 400 "Simulation already running", s, 0)) ∧
    (s.running = false → (sid = 1 ∨ sid = 2 ∨ sid = 3) →
      start_scenario s sid =
        (ApiResult.ok ("Started scenario " ++ toString sid) "success",
         { s with running := true }, 1)) := by
  constructor
  · intro h
    simp [start_scenario, h]
  · intro h hid
    rcases hid with h1 | h2 | h3
    · subst h1; simp [start_scenario, h, start_scenario_body]
    · subst h2; simp [start_scenario, h, start_scenario_body]
    · subst h3; simp [start_scenario, h, start_scenario_body]

/-- Witness for C4: a successful start of scenario 1 from the idle initial
state, and a rejected start from the running state. -/
theorem C4_witness :
    start_scenario initial_state 1 =
      (ApiResult.ok ("Started scenario " ++ toString (1 : ℤ)) "success",
       { initial_state with running := true }, 1) ∧
    start_scenario running_state 1 =
      (ApiResult.httpError 400 "Simulation already running", running_state, 0) :=
  ⟨(C4_start_transitions initial_state 1).2 rfl (Or.inl rfl),
   (C4_start_transitions running_state 1).1 rfl⟩

/-- C8: `reset()` always succeeds, and afterwards the four percentage
metrics are 0, `vm_migration_count` is 0, every zone has `vm_count = 0` and
`utilization = 0`, `running = false`, `scenario = "idle"`, and the
inventory is freshly regenerated with exactly 5 hosts and 15 VMs (for any
values of the random VM-requirement draws). -/
theorem C8_reset (s : SimState) (dc dr ds db : ℕ → ℚ) :
    (reset_simulation s dc dr ds db).1 = ⟨"Simulation reset", "success"⟩ ∧
    (reset_simulation s dc dr ds db).2.running = false ∧
    (reset_simulation s dc dr ds db).2.scenario = ScenarioTag.idle ∧
    (reset_simulation s dc dr ds db).2.metrics = ⟨0, 0, 0, 0, 0⟩ ∧
    (reset_simulation s dc dr ds db).2.zone_status = ⟨⟨0, 0⟩, ⟨0, 0⟩, ⟨0, 0⟩⟩ ∧
    (reset_simulation s dc dr ds db).2.hosts.length = 5 ∧
    (reset_simulation s dc dr ds db).2.vms.length = 15 := by
  refine ⟨rfl, rfl, rfl, rfl, rfl, ?_, ?_⟩ <;>
    simp [reset_simulation, init_simulation]

/-- C9: a scenario stepper never writes the `running` flag (so after natural
completion of all its steps, `running` is still whatever it was — in
particular still `true` when the run was started normally), and it modifies
no state besides `scenario`, `metrics` and `zone_status`: the `vms` and
`hosts` inventory is untouched, in all three scenarios. -/
theorem C9_stepper_frame (rnd1 : ℕ → Rnd1) (rnd2 : ℕ → Rnd2) (rnd3 : ℕ → Rnd3)
    (s : SimState) :
    ((scenario1_run rnd1 s).1.running = s.running ∧
      (scenario1_run rnd1 s).1.vms = s.vms ∧
      (scenario1_run rnd1 s).1.hosts = s.hosts) ∧
    ((scenario2_run rnd2 s).1.running = s.running ∧
      (scenario2_run rnd2 s).1.vms = s.vms ∧
      (scenario2_run rnd2 s).1.hosts = s.hosts) ∧
    ((scenario3_run rnd3 s).1.running = s.running ∧
      (scenario3_run rnd3 s).1.vms = s.vms ∧
      (scenario3_run rnd3 s).1.hosts = s.hosts) ∧
    (s.running = true →
      (scenario1_run rnd1 s).1.running = true ∧
      (scenario2_run rnd2 s).1.running = true ∧
      (scenario3_run rnd3 s).1.running = true) := by
  have H1 : (scenario1_run rnd1 s).1.running = s.running ∧
      (scenario1_run rnd1 s).1.vms = s.vms ∧
      (scenario1_run rnd1 s).1.hosts = s.hosts := by
    simp only [scenario1_run, stepsFold]
    exact stepsFold_inv _
      (fun t => t.running = s.running ∧ t.vms = s.vms ∧ t.hosts = s.hosts)
      (fun i t h => h) _ _ ⟨rfl, rfl, rfl⟩
  have H2 : (scenario2_run rnd2 s).1.running = s.running ∧
      (scenario2_run rnd2 s).1.vms = s.vms ∧
      (scenario2_run rnd2 s).1.hosts = s.hosts := by
    simp only [scenario2_run, stepsFold]
    exact stepsFold_inv _
      (fun t => t.running = s.running ∧ t.vms = s.vms ∧ t.hosts = s.hosts)
      (fun i t h => h) _ _ ⟨rfl, rfl, rfl⟩
  have H3 : (scenario3_run rnd3 s).1.running = s.running ∧
      (scenario3_run rnd3 s).1.vms = s.vms ∧
      (scenario3_run rnd3 s).1.hosts = s.hosts := by
    simp only [scenario3_run, stepsFold]
    exact stepsFold_inv _
      (fun t => t.running = s.running ∧ t.vms = s.vms ∧ t.hosts = s.hosts)
      (fun i t h => h) _ _ ⟨rfl, rfl, rfl⟩
  exact ⟨H1, H2, H3, fun hr => ⟨H1.1.trans hr, H2.1.trans hr, H3.1.trans hr⟩⟩

/-- Witness for C9: natural completion of each scenario started from the
running state (all-zero randomness) leaves `running = true`. -/
theorem C9_witness :
    (scenario1_run rnd1z running_state).1.running = true ∧
    (scenario2_run rnd2z running_state).1.running = true ∧
    (scenario3_run rnd3z running_state).1.running = true :=
  (C9_stepper_frame rnd1z rnd2z rnd3z running_state).2.2.2 rfl

/-- C10: `disconnect` on an unregistered websocket is a safe no-op (total,
membership unchanged); on a registered one it removes exactly that one
entry: the length and the count of `ws` drop by one and every other
member's count is unchanged.  The double removal arising when a subscriber
both disconnects and fails a delivery therefore hits the no-op branch and
cannot raise. -/
theorem C10_disconnect_safe (conns : List ℕ) (ws : ℕ) :
    (ws ∉ conns → disconnect conns ws = conns) ∧
    (ws ∈ conns →
      (disconnect conns ws).length + 1 = conns.length ∧
      (disconnect conns ws).count ws + 1 = conns.count ws ∧
      ∀ w, w ≠ ws → (disconnect conns ws).count w = conns.count w) := by
  constructor
  · intro h
    rw [disconnect, if_neg h]
  · intro h
    simp only [disconnect, if_pos h]
    refine ⟨?_, ?_, ?_⟩
    · rw [List.length_erase_of_mem h]
      have hl : 0 < conns.length := List.length_pos.mpr (List.ne_nil_of_mem h)
      omega
    · rw [List.count_erase_self]
      have hc : 0 < conns.count ws := List.count_pos_iff.mpr h
      omega
    · intro w hw
      exact List.count_erase_of_ne hw conns

/-- Witness for C10: removing an absent id is a no-op; removing a present
id removes exactly one entry. -/
theorem C10_witness :
    disconnect [5] 7 = [5] ∧
    (disconnect [5, 6] 5).length + 1 = ([5, 6] : List ℕ).length ∧
    (disconnect [5, 6] 5).count 6 = ([5, 6] : List ℕ).count 6 :=
  ⟨(C10_disconnect_safe [5] 7).1 (by decide),
   ((C10_disconnect_safe [5, 6] 5).2 (by decide)).1,
   ((C10_disconnect_safe [5, 6] 5).2 (by decide)).2.2 6 (by decide)⟩

end CloudSim
